import Mathlib

/-!
Shallow embedding of `src/obsapi.cc` (an N-API wrapper around the OBS
streaming engine) together with theorems settling the specification
claims.  Each definition mirrors one C++ function or class of the source
file; engine calls are recorded in an explicit trace, machine strings are
`List Char` / `String`, and the `size_t`/`int` arithmetic of the source
is made explicit.
-/

namespace ObsApi

/-- Pixel formats relevant to the wrapper (`VIDEO_FORMAT_*` in obs.h);
only `I420` is ever used by the source. -/
inductive VideoFormat where
  | NONE
  | I420
  | NV12
  deriving DecidableEq

/-- Speaker layouts used by the wrapper (`SPEAKERS_STEREO` / `SPEAKERS_MONO`). -/
inductive SpeakerLayout where
  | stereo
  | mono
  deriving DecidableEq

/-- `struct obs_video_info` as populated by `create_ovi`. -/
structure Ovi where
  adapter : Nat
  graphics_module : String
  output_format : VideoFormat
  fps_num : Nat
  fps_den : Nat
  base_width : Nat
  base_height : Nat
  output_width : Nat
  output_height : Nat
  deriving DecidableEq

/-- `struct obs_audio_info` as populated by `create_oai`. -/
structure Oai where
  samples_per_sec : Nat
  speakers : SpeakerLayout
  deriving DecidableEq

/-- `#define DEFAULT_VIDEO_ADAPTER 0` -/
def DEFAULT_VIDEO_ADAPTER : Nat := 0

/-- `#define DEFAULT_MODULE ("libobs-opengl")` -/
def DEFAULT_MODULE : String := "libobs-opengl"

/-- `#define DEFAULT_VIDEO_FORMAT VIDEO_FORMAT_I420` -/
def DEFAULT_VIDEO_FORMAT : VideoFormat := VideoFormat.I420

/-- `#define DEFAULT_VIDEO_FPS_NUM 30000` -/
def DEFAULT_VIDEO_FPS_NUM : Nat := 30000

/-- `#define DEFAULT_VIDEO_FPS_DEN 1000` -/
def DEFAULT_VIDEO_FPS_DEN : Nat := 1000

/-- `#define DEFAULT_VIDEO_WIDTH 640` -/
def DEFAULT_VIDEO_WIDTH : Nat := 640

/-- `#define DEFAULT_VIDEO_HEIGHT 360` -/
def DEFAULT_VIDEO_HEIGHT : Nat := 360

/-- `#define DEFAULT_AUDIO_SAMPLES 44100` -/
def DEFAULT_AUDIO_SAMPLES : Nat := 44100

/-- `#define DEFAULT_AUDIO_CHANNELS SPEAKERS_STEREO` -/
def DEFAULT_AUDIO_CHANNELS : SpeakerLayout := SpeakerLayout.stereo

/-- `#define NOT_INITIALIZED_STRING ("Error: OBS API not initialized!")` -/
def NOT_INITIALIZED_STRING : String := "Error: OBS API not initialized!"

/-- Message of the argument-validation `TypeError` thrown by the three
asynchronous workers' `Create` functions. -/
def EXPECTED_STRING_ARG : String := "Expected a single string argument"

/-- `create_ovi` from the source: fills every field of `obs_video_info`
from its arguments.  The C++ declaration gives every parameter a default
value; call sites in this file pass the defaulted arguments explicitly. -/
def create_ovi (adapter : Nat) (graphics_module : String)
    (output_format : VideoFormat) (fps_num fps_den : Nat)
    (base_width base_height output_width output_height : Nat) : Ovi :=
  { adapter := adapter
    graphics_module := graphics_module
    output_format := output_format
    fps_num := fps_num
    fps_den := fps_den
    base_width := base_width
    base_height := base_height
    output_width := output_width
    output_height := output_height }

/-- `create_oai` from the source. -/
def create_oai (samples_per_sec : Nat) (speakers : SpeakerLayout) : Oai :=
  { samples_per_sec := samples_per_sec, speakers := speakers }

/-- The whitespace predicate of C `isspace` (as used by `atoi`). -/
def isSpaceC (c : Char) : Bool :=
  c = ' ' || c = '\t' || c = '\n' || c = '\x0b' || c = '\x0c' || c = '\r'

/-- Value of the maximal leading run of decimal digits (the digit-scanning
loop inside C `atoi`); an input with no leading digit yields 0. -/
def natOfDigits (l : List Char) : Nat :=
  (l.takeWhile (fun c => c.isDigit)).foldl (fun a c => 10 * a + (c.toNat - 48)) 0

/-- C `atoi` on a character list: skip whitespace, read an optional sign,
then the maximal digit run.  Modelled mathematically (no `int` overflow:
the model is faithful on inputs whose value fits in `int`, beyond which
`atoi` has no defined behaviour to model). -/
def atoi (l : List Char) : Int :=
  match l.dropWhile isSpaceC with
  | [] => 0
  | c :: rest =>
      if c = '-' then -(natOfDigits rest : Int)
      else if c = '+' then (natOfDigits rest : Int)
      else (natOfDigits (c :: rest) : Int)

/-- Conversion of the `int` result of `atoi` to `size_t` (reduction
modulo 2^64, as C++ integer conversion prescribes). -/
def toSizeT (i : Int) : Nat := (i % (2 ^ 64 : Int)).toNat

/-- `std::string::find(char)`: index of the first occurrence, `none` for
`npos`. -/
def findChar (c : Char) : List Char → Option Nat
  | [] => none
  | a :: as => if a = c then some 0 else (findChar c as).map (· + 1)

/-- The size-hint parsing block of `AsyncResetVideoWorker::Execute`:
`width`/`height` start at the defaults 640/360; if the input contains an
`'x'`, the part before it (when non-empty) is `atoi`-parsed as the width
and the part after it (when non-empty) as the height. -/
def parseSizeHint (input : List Char) : Nat × Nat :=
  match findChar 'x' input with
  | none => (DEFAULT_VIDEO_WIDTH, DEFAULT_VIDEO_HEIGHT)
  | some xpos =>
      let w := input.take xpos
      let h := input.drop (xpos + 1)
      let width := if w.length ≠ 0 then toSizeT (atoi w) else DEFAULT_VIDEO_WIDTH
      let height := if h.length ≠ 0 then toSizeT (atoi h) else DEFAULT_VIDEO_HEIGHT
      (width, height)

/-- The character list of the literal `"mono"` searched for by
`AsyncResetAudioWorker::Execute`. -/
def monoChars : List Char := ['m', 'o', 'n', 'o']

/-- `input.find("mono") != npos`: scan every suffix for the pattern as a
prefix, exactly as `std::string::find` does. -/
def containsMono : List Char → Bool
  | [] => false
  | c :: rest => monoChars.isPrefixOf (c :: rest) || containsMono rest

/-- The channel-hint logic of `AsyncResetAudioWorker::Execute`:
`stereo = true` unless `"mono"` occurs in the input. -/
def parseChannelHint (input : List Char) : SpeakerLayout :=
  if containsMono input then SpeakerLayout.mono else SpeakerLayout.stereo

/-- The `obs_video_info` built by `AsyncResetVideoWorker::Execute`: the
source calls `create_ovi` with seven explicit arguments, so the last two
parameters (`output_width`, `output_height`) take their C++ default
values `DEFAULT_VIDEO_WIDTH`/`DEFAULT_VIDEO_HEIGHT`. -/
def resetVideoBuildOvi (input : List Char) : Ovi :=
  let p := parseSizeHint input
  create_ovi DEFAULT_VIDEO_ADAPTER DEFAULT_MODULE DEFAULT_VIDEO_FORMAT
    DEFAULT_VIDEO_FPS_NUM DEFAULT_VIDEO_FPS_DEN p.1 p.2
    DEFAULT_VIDEO_WIDTH DEFAULT_VIDEO_HEIGHT

/-- The `obs_audio_info` built by `AsyncResetAudioWorker::Execute`. -/
def resetAudioBuildOai (input : List Char) : Oai :=
  create_oai DEFAULT_AUDIO_SAMPLES (parseChannelHint input)

/-- A JavaScript argument as the N-API dispatch code observes it: a
string value or a value of any other type. -/
inductive JsValue where
  | str (s : String)
  | nonString
  deriving DecidableEq

/-- The outcome a command delivers to the host: a synchronously thrown
`TypeError`, a synchronously returned string, or a promise settlement. -/
inductive JsOutcome where
  | thrown (msg : String)
  | str (s : String)
  | resolved (s : String)
  | rejected (msg : String)
  deriving DecidableEq

/-- What an asynchronous worker's `Create` function does: throw a
`TypeError`, or queue a worker holding the marshalled input string. -/
inductive CreateResult where
  | thrown (msg : String)
  | queued (input : String)
  deriving DecidableEq

/-- Calls into the native OBS layer, with their arguments.  Handles are
modelled as `Option Nat` — `none` is a NULL pointer. -/
inductive NativeCall where
  | shutdownCall
  | resetVideo (ovi : Ovi)
  | resetAudio (oai : Oai)
  | videoEncoderCreate (id name : String)
  | audioEncoderCreate (id name : String) (mixerIdx : Nat)
  | outputCreate (id name : String)
  | serviceCreate (id name : String)
  | encoderSetVideo (enc pipeline : Option Nat)
  | encoderSetAudio (enc pipeline : Option Nat)
  | outputSetVideoEncoder (out enc : Option Nat)
  | outputSetAudioEncoder (out enc : Option Nat) (idx : Nat)
  | outputSetService (out svc : Option Nat)
  | outputStart (out : Option Nat)
  | outputStop (out : Nat)
  | outputRelease (out : Nat)
  | encoderRelease (enc : Nat)
  | serviceRelease (svc : Nat)
  deriving DecidableEq

/-- The observable state of the wrapped OBS engine: whether
`obs_initialized()` holds, which encoder/output type names are
registered (read by the enumeration queries), and the video/audio
configuration last applied by a reset call. -/
structure EngineState where
  initialized : Bool
  registeredEncoders : List String
  registeredOutputs : List String
  videoConfig : Option Ovi
  audioConfig : Option Oai
  deriving DecidableEq

/-- The engine's responses to the handle-creating calls issued by
`AsyncStartOutputWorker::Execute`, and the current pipeline handles
returned by `obs_get_video`/`obs_get_audio`.  `none` models a NULL
return. -/
structure Engine where
  videoEncoderHandle : String → Option Nat
  audioEncoderHandle : String → Option Nat
  currentVideo : Option Nat
  currentAudio : Option Nat

/-- `enumCodecs` / `enumOutputs` callback body: append the enumerated
name to the accumulator string (`*codecs += name`). -/
def enumAppend (acc : String) (name : String) : String := acc ++ name

/-- `obsGetCodecs`: when initialized, enumerate registered encoders
through `enumAppend` starting from `""`; otherwise return the sentinel
string.  Always a plain string return, never a thrown error. -/
def obsGetCodecs (eng : EngineState) : JsOutcome :=
  if eng.initialized then JsOutcome.str (eng.registeredEncoders.foldl enumAppend "")
  else JsOutcome.str NOT_INITIALIZED_STRING

/-- `obsGetOutputs`: same shape as `obsGetCodecs`, over registered
output types. -/
def obsGetOutputs (eng : EngineState) : JsOutcome :=
  if eng.initialized then JsOutcome.str (eng.registeredOutputs.foldl enumAppend "")
  else JsOutcome.str NOT_INITIALIZED_STRING

/-- `obsShutdown`: when initialized, call `obs_shutdown()` and return a
fixed success string; otherwise return the sentinel string and touch
nothing. -/
def obsShutdown (eng : EngineState) : JsOutcome × List NativeCall × EngineState :=
  if eng.initialized then
    (JsOutcome.str "Success shutting down OBS", [NativeCall.shutdownCall],
      { eng with initialized := false })
  else
    (JsOutcome.str NOT_INITIALIZED_STRING, [], eng)

/-- The shared dispatch-time validation of the three asynchronous
workers' `Create` functions (`AsyncResetVideoWorker`,
`AsyncResetAudioWorker`, `AsyncStartOutputWorker`): first the
`obs_initialized()` guard, then the `info.Length() != 1 ||
!info[0].IsString()` argument check; on success the single string
argument is stored in the queued worker. -/
def workerCreate (eng : EngineState) (args : List JsValue) : CreateResult :=
  if !eng.initialized then CreateResult.thrown NOT_INITIALIZED_STRING
  else
    match args with
    | [JsValue.str s] => CreateResult.queued s
    | _ => CreateResult.thrown EXPECTED_STRING_ARG

/-- `AsyncResetVideoWorker::Create` (the source repeats the shared
guard sequence verbatim in each worker). -/
def resetVideoCreate (eng : EngineState) (args : List JsValue) : CreateResult :=
  workerCreate eng args

/-- `AsyncResetAudioWorker::Create`. -/
def resetAudioCreate (eng : EngineState) (args : List JsValue) : CreateResult :=
  workerCreate eng args

/-- `AsyncStartOutputWorker::Create`. -/
def startOutputCreate (eng : EngineState) (args : List JsValue) : CreateResult :=
  workerCreate eng args

/-- One full `resetVideo` command: dispatch, then (when a worker was
queued) `Execute` building the `obs_video_info` and calling
`obs_reset_video`, then `OnOK` resolving with
`to_string(base_width) + 'x' + to_string(base_height)`.  The
`sessionRunning` flag is a ghost parameter recording whether a
start-output attempt is live; the source defines no such state and the
definition never reads it. -/
def resetVideoRun (eng : EngineState) (sessionRunning : Bool) (args : List JsValue) :
    JsOutcome × List NativeCall × EngineState :=
  match resetVideoCreate eng args with
  | CreateResult.thrown m => (JsOutcome.thrown m, [], eng)
  | CreateResult.queued input =>
      let ovi := resetVideoBuildOvi input.toList
      (JsOutcome.resolved (toString ovi.base_width ++ "x" ++ toString ovi.base_height),
        [NativeCall.resetVideo ovi], { eng with videoConfig := some ovi })

/-- One full `resetAudio` command: dispatch, `Execute` building the
`obs_audio_info` and calling `obs_reset_audio`, then `OnOK` resolving
`"stereo"` or `"mono"` according to `oai.speakers`.  `sessionRunning`
is the same ghost parameter as in `resetVideoRun`. -/
def resetAudioRun (eng : EngineState) (sessionRunning : Bool) (args : List JsValue) :
    JsOutcome × List NativeCall × EngineState :=
  match resetAudioCreate eng args with
  | CreateResult.thrown m => (JsOutcome.thrown m, [], eng)
  | CreateResult.queued input =>
      let oai := resetAudioBuildOai input.toList
      (JsOutcome.resolved (if oai.speakers = SpeakerLayout.stereo then "stereo" else "mono"),
        [NativeCall.resetAudio oai], { eng with audioConfig := some oai })

/-- Encoder id hard-coded in `AsyncStartOutputWorker::Execute` for
`obs_video_encoder_create`. -/
def VIDEO_ENCODER_ID : String := "com.apple.videotoolbox.videoencoder.h264.gva"

/-- Encoder id hard-coded in `AsyncStartOutputWorker::Execute` for
`obs_audio_encoder_create`. -/
def AUDIO_ENCODER_ID : String := "adv_stream_aac"

/-- The members of `AsyncStartOutputWorker`: the stored input string,
the four session handles (all initialized to `nullptr` in the class),
and `audio_index` (initialized to 0). -/
structure StartWorker where
  input : String
  video_encoder : Option Nat
  audio_encoder : Option Nat
  output : Option Nat
  streaming_service : Option Nat
  audio_index : Nat
  deriving DecidableEq

/-- A freshly constructed `AsyncStartOutputWorker`: the constructor
stores the input; the in-class initializers leave every handle NULL and
`audio_index = 0`. -/
def mkStartWorker (input : String) : StartWorker :=
  { input := input
    video_encoder := none
    audio_encoder := none
    output := none
    streaming_service := none
    audio_index := 0 }

/-- `AsyncStartOutputWorker::Execute`: create the video and audio
encoders (with hard-coded ids and empty names), bind each to the
engine's current video/audio pipeline, attach encoders and service to
`output`, and start `output`.  Note that `output` and
`streaming_service` are whatever the worker already holds — `Execute`
never creates them. -/
def startOutputExecute (eng : Engine) (w : StartWorker) : StartWorker × List NativeCall :=
  let ve := eng.videoEncoderHandle VIDEO_ENCODER_ID
  let ae := eng.audioEncoderHandle AUDIO_ENCODER_ID
  ({ w with video_encoder := ve, audio_encoder := ae },
    [NativeCall.videoEncoderCreate VIDEO_ENCODER_ID "",
     NativeCall.audioEncoderCreate AUDIO_ENCODER_ID "" 0,
     NativeCall.encoderSetVideo ve eng.currentVideo,
     NativeCall.encoderSetAudio ae eng.currentAudio,
     NativeCall.outputSetVideoEncoder w.output ve,
     NativeCall.outputSetAudioEncoder w.output ae w.audio_index,
     NativeCall.outputSetService w.output w.streaming_service,
     NativeCall.outputStart w.output])

/-- `AsyncStartOutputWorker::cleanup`: sequentially — stop and release
`output` when non-null and null it, release `video_encoder` when
non-null and null it, release `audio_encoder` when non-null and null
it, release `streaming_service` when non-null and null it; the emitted
native calls are returned in execution order. -/
def cleanupStart (w : StartWorker) : StartWorker × List NativeCall :=
  let step1 :=
    match w.output with
    | some o => ({ w with output := none }, [NativeCall.outputStop o, NativeCall.outputRelease o])
    | none => (w, [])
  let step2 :=
    match step1.1.video_encoder with
    | some e => ({ step1.1 with video_encoder := none }, step1.2 ++ [NativeCall.encoderRelease e])
    | none => step1
  let step3 :=
    match step2.1.audio_encoder with
    | some e => ({ step2.1 with audio_encoder := none }, step2.2 ++ [NativeCall.encoderRelease e])
    | none => step2
  match step3.1.streaming_service with
  | some s => ({ step3.1 with streaming_service := none }, step3.2 ++ [NativeCall.serviceRelease s])
  | none => step3

/-- An observable event of a completion handler: a native call, or the
settlement of the command's promise. -/
inductive Event where
  | call (c : NativeCall)
  | settle (o : JsOutcome)
  deriving DecidableEq

/-- `AsyncStartOutputWorker::OnOK`: run `cleanup()`, then resolve the
promise with `"ok"`; events are listed in execution order. -/
def startOutputOnOK (w : StartWorker) : StartWorker × List Event :=
  let c := cleanupStart w
  (c.1, c.2.map Event.call ++ [Event.settle (JsOutcome.resolved "ok")])

/-- `AsyncStartOutputWorker::OnError`: run `cleanup()`, then reject the
promise with the error. -/
def startOutputOnError (w : StartWorker) (msg : String) : StartWorker × List Event :=
  let c := cleanupStart w
  (c.1, c.2.map Event.call ++ [Event.settle (JsOutcome.rejected msg)])

/-- One full `startOutput` command: dispatch, then (when a worker was
queued) `Execute` on a fresh worker followed by `OnOK` (the execute body
signals no errors, so `OnOK` always runs): cleanup's releases happen,
then the promise resolves `"ok"`. -/
def startOutputRun (eng : Engine) (est : EngineState) (args : List JsValue) :
    JsOutcome × List NativeCall :=
  match startOutputCreate est args with
  | CreateResult.thrown m => (JsOutcome.thrown m, [])
  | CreateResult.queued input =>
      let e := startOutputExecute eng (mkStartWorker input)
      let c := cleanupStart e.1
      (JsOutcome.resolved "ok", e.2 ++ c.2)

/-- Count of live (non-null) session handles held by a worker. -/
def liveHandleCount (w : StartWorker) : Nat :=
  (if w.video_encoder.isSome then 1 else 0) +
  (if w.audio_encoder.isSome then 1 else 0) +
  (if w.output.isSome then 1 else 0) +
  (if w.streaming_service.isSome then 1 else 0)

/-- A worker with every session handle nulled out: zero live session
resources. -/
def clearedWorker (w : StartWorker) : StartWorker :=
  { w with
    video_encoder := none
    audio_encoder := none
    output := none
    streaming_service := none }

/-- The release sequence the specification prescribes for a completion
handler, as a function of the four handles: stop and release the output,
release the video encoder, release the audio encoder, release the
service — each skipped when the handle is null. -/
def releaseCallsSpec (o ve ae sv : Option Nat) : List NativeCall :=
  (match o with
   | some h => [NativeCall.outputStop h, NativeCall.outputRelease h]
   | none => []) ++
  (match ve with
   | some h => [NativeCall.encoderRelease h]
   | none => []) ++
  (match ae with
   | some h => [NativeCall.encoderRelease h]
   | none => []) ++
  (match sv with
   | some h => [NativeCall.serviceRelease h]
   | none => [])

/-- A sample engine whose creation calls all succeed, used to evaluate
the model on concrete runs. -/
def engSample : Engine :=
  { videoEncoderHandle := fun _ => some 1
    audioEncoderHandle := fun _ => some 2
    currentVideo := some 10
    currentAudio := some 11 }

/-- An initialized engine state with nothing registered, used to
evaluate the model on concrete runs. -/
def estInit : EngineState :=
  { initialized := true
    registeredEncoders := []
    registeredOutputs := []
    videoConfig := none
    audioConfig := none }

/-- An uninitialized engine state, used to evaluate the model on
concrete runs. -/
def estUninit : EngineState :=
  { initialized := false
    registeredEncoders := []
    registeredOutputs := []
    videoConfig := none
    audioConfig := none }

/-- The ordinary decimal value of a digit string (the reference value
of a numeric side in the size-hint claims). -/
def decValue (l : List Char) : Nat :=
  l.foldl (fun a c => 10 * a + (c.toNat - 48)) 0

theorem isSpaceC_eq_false_of_isDigit (c : Char) (h : c.isDigit = true) :
    isSpaceC c = false := by
  by_contra hs
  rw [Bool.not_eq_false, isSpaceC] at hs
  simp only [Bool.or_eq_true, decide_eq_true_eq] at hs
  rcases hs with ((((rfl | rfl) | rfl) | rfl) | rfl) | rfl <;> exact absurd h (by decide)

theorem ne_minus_of_isDigit (c : Char) (h : c.isDigit = true) : c ≠ '-' := by
  intro hc; rw [hc] at h; exact absurd h (by decide)

theorem ne_plus_of_isDigit (c : Char) (h : c.isDigit = true) : c ≠ '+' := by
  intro hc; rw [hc] at h; exact absurd h (by decide)

theorem natOfDigits_eq_decValue (l : List Char) (h : ∀ c ∈ l, c.isDigit = true) :
    natOfDigits l = decValue l := by
  unfold natOfDigits decValue
  rw [List.takeWhile_eq_self_iff.mpr h]

theorem atoi_digits (l : List Char) (hne : l ≠ [])
    (h : ∀ x ∈ l, x.isDigit = true) :
    atoi l = (decValue l : Int) := by
  obtain ⟨c, rest, rfl⟩ : ∃ c rest, l = c :: rest := by
    cases l with
    | nil => exact absurd rfl hne
    | cons c rest => exact ⟨c, rest, rfl⟩
  have hc : c.isDigit = true := h c (List.mem_cons_self c rest)
  unfold atoi
  rw [List.dropWhile_cons, isSpaceC_eq_false_of_isDigit c hc]
  simp only [Bool.false_eq_true, if_false]
  rw [if_neg (ne_minus_of_isDigit c hc), if_neg (ne_plus_of_isDigit c hc),
    natOfDigits_eq_decValue _ h]

theorem toSizeT_ofNat (n : Nat) (h : n < 2 ^ 64) : toSizeT (n : Int) = n := by
  unfold toSizeT
  rw [Int.emod_eq_of_lt (Int.ofNat_nonneg n) (by exact_mod_cast h), Int.toNat_ofNat]

theorem findChar_eq_none (c : Char) (l : List Char) (h : c ∉ l) :
    findChar c l = none := by
  induction l with
  | nil => rfl
  | cons a as ih =>
      rw [findChar, if_neg (by rintro rfl; exact h (List.mem_cons_self a as)),
        ih (fun hm => h (List.mem_cons_of_mem a hm))]
      rfl

theorem findChar_append (c : Char) (w t : List Char) (h : c ∉ w) :
    findChar c (w ++ c :: t) = some w.length := by
  induction w with
  | nil => simp [findChar]
  | cons a as ih =>
      rw [List.cons_append, findChar,
        if_neg (by rintro rfl; exact h (List.mem_cons_self a as)),
        ih (fun hm => h (List.mem_cons_of_mem a hm))]
      rfl

theorem parseSizeHint_split (w h : List Char) (hx : 'x' ∉ w) :
    parseSizeHint (w ++ 'x' :: h) =
      (if w.length ≠ 0 then toSizeT (atoi w) else DEFAULT_VIDEO_WIDTH,
       if h.length ≠ 0 then toSizeT (atoi h) else DEFAULT_VIDEO_HEIGHT) := by
  have htake : (w ++ 'x' :: h).take w.length = w := List.take_left w ('x' :: h)
  have hdrop : (w ++ 'x' :: h).drop (w.length + 1) = h := by
    rw [show w ++ 'x' :: h = (w ++ ['x']) ++ h by simp,
      show w.length + 1 = (w ++ ['x']).length by simp]
    exact List.drop_left _ _
  unfold parseSizeHint
  rw [findChar_append 'x' w h hx]
  simp only [htake, hdrop]

theorem containsMono_iff (l : List Char) :
    containsMono l = true ↔ monoChars <:+: l := by
  induction l with
  | nil =>
      rw [List.infix_nil]
      simp [containsMono, monoChars]
  | cons c rest ih =>
      rw [containsMono, List.infix_cons_iff, Bool.or_eq_true,
        List.isPrefixOf_iff_prefix, ih]

theorem atoi_nonNumericHead (c : Char) (t : List Char) (hd : c.isDigit = false)
    (hs : isSpaceC c = false) (hp : c ≠ '+') (hm : c ≠ '-') :
    atoi (c :: t) = 0 := by
  unfold atoi
  rw [List.dropWhile_cons, hs]
  simp only [Bool.false_eq_true, if_false]
  rw [if_neg hm, if_neg hp]
  unfold natOfDigits
  rw [List.takeWhile_cons, hd]
  rfl

/-- C1: for every Start-Output attempt, on every exit path (success or
error) the completion handler releases all session handles before the
result is delivered, in strict reverse-dependency order (stop output,
release output, release video encoder, release audio encoder, release
service), each release skipped when its handle is null; after the
attempt settles, zero live session resources remain. -/
theorem startOutput_completion_releases_all (w : StartWorker) (m : String) :
    startOutputOnOK w =
      (clearedWorker w,
        (releaseCallsSpec w.output w.video_encoder w.audio_encoder w.streaming_service).map
          Event.call ++ [Event.settle (JsOutcome.resolved "ok")]) ∧
    startOutputOnError w m =
      (clearedWorker w,
        (releaseCallsSpec w.output w.video_encoder w.audio_encoder w.streaming_service).map
          Event.call ++ [Event.settle (JsOutcome.rejected m)]) ∧
    liveHandleCount (startOutputOnOK w).1 = 0 ∧
    liveHandleCount (startOutputOnError w m).1 = 0 := by
  obtain ⟨inp, ve, ae, o, sv, ai⟩ := w
  cases o <;> cases ve <;> cases ae <;> cases sv <;>
    exact ⟨rfl, rfl, rfl, rfl⟩

/-- C2 (code evaluated at the failing input): `startOutput`'s `Execute`
never creates the output or the service handle — for every engine and
every hint the worker's `output` and `streaming_service` stay null —
and a concrete run shows the attach and start calls receiving a NULL
output, contradicting the claimed creation of all four handles. -/
theorem startOutput_never_creates_output_or_service :
    (∀ (eng : Engine) (s : String),
      (startOutputExecute eng (mkStartWorker s)).1.output = none ∧
      (startOutputExecute eng (mkStartWorker s)).1.streaming_service = none) ∧
    startOutputExecute engSample (mkStartWorker "rtmp://live.twitch.tv") =
      ({ input := "rtmp://live.twitch.tv"
         video_encoder := some 1
         audio_encoder := some 2
         output := none
         streaming_service := none
         audio_index := 0 },
        [NativeCall.videoEncoderCreate VIDEO_ENCODER_ID "",
         NativeCall.audioEncoderCreate AUDIO_ENCODER_ID "" 0,
         NativeCall.encoderSetVideo (some 1) (some 10),
         NativeCall.encoderSetAudio (some 2) (some 11),
         NativeCall.outputSetVideoEncoder none (some 1),
         NativeCall.outputSetAudioEncoder none (some 2) 0,
         NativeCall.outputSetService none none,
         NativeCall.outputStart none]) :=
  ⟨fun _ _ => ⟨rfl, rfl⟩, rfl⟩

/-- C3: each engine-dependent command (shutdown, resetVideo,
resetAudio, startOutput) invoked while the engine is uninitialized
fails carrying the not-initialized message — shutdown by returning the
sentinel string, the three asynchronous commands by throwing — makes no
native call, queues no worker, and leaves the engine state unchanged. -/
theorem uninitialized_commands_fail_not_initialized (eng : EngineState) (engn : Engine)
    (b : Bool) (args : List JsValue) (h : eng.initialized = false) :
    obsShutdown eng = (JsOutcome.str NOT_INITIALIZED_STRING, [], eng) ∧
    resetVideoRun eng b args = (JsOutcome.thrown NOT_INITIALIZED_STRING, [], eng) ∧
    resetAudioRun eng b args = (JsOutcome.thrown NOT_INITIALIZED_STRING, [], eng) ∧
    startOutputRun engn eng args = (JsOutcome.thrown NOT_INITIALIZED_STRING, []) := by
  simp [obsShutdown, resetVideoRun, resetAudioRun, startOutputRun, resetVideoCreate,
    resetAudioCreate, startOutputCreate, workerCreate, h]

/-- C3 witness: the four commands evaluated on a concrete uninitialized
state. -/
theorem uninitialized_commands_fail_not_initialized_witness :
    obsShutdown estUninit = (JsOutcome.str NOT_INITIALIZED_STRING, [], estUninit) ∧
    resetVideoRun estUninit false [JsValue.str "1280x720"] =
      (JsOutcome.thrown NOT_INITIALIZED_STRING, [], estUninit) ∧
    resetAudioRun estUninit false [JsValue.str "mono"] =
      (JsOutcome.thrown NOT_INITIALIZED_STRING, [], estUninit) ∧
    startOutputRun engSample estUninit [JsValue.str "mono"] =
      (JsOutcome.thrown NOT_INITIALIZED_STRING, []) :=
  ⟨(uninitialized_commands_fail_not_initialized estUninit engSample false
      [JsValue.str "1280x720"] rfl).1,
   (uninitialized_commands_fail_not_initialized estUninit engSample false
      [JsValue.str "1280x720"] rfl).2.1,
   (uninitialized_commands_fail_not_initialized estUninit engSample false
      [JsValue.str "mono"] rfl).2.2.1,
   (uninitialized_commands_fail_not_initialized estUninit engSample false
      [JsValue.str "mono"] rfl).2.2.2⟩

/-- C4 counterexample: with the engine initialized and a session
running, `resetVideo "100x100"` resolves `"100x100"` after dispatching
`obs_reset_video` to the engine, and `resetAudio "hint"` resolves
`"stereo"` — neither fails with a SessionActive error as the claim
states. -/
theorem resetVideo_while_running_resolves :
    resetVideoRun estInit true [JsValue.str "100x100"] =
      (JsOutcome.resolved "100x100",
        [NativeCall.resetVideo (create_ovi 0 "libobs-opengl" VideoFormat.I420
          30000 1000 100 100 640 360)],
        { estInit with videoConfig := some (create_ovi 0 "libobs-opengl" VideoFormat.I420
          30000 1000 100 100 640 360) }) ∧
    resetAudioRun estInit true [JsValue.str "hint"] =
      (JsOutcome.resolved "stereo",
        [NativeCall.resetAudio (create_oai 44100 SpeakerLayout.stereo)],
        { estInit with audioConfig := some (create_oai 44100 SpeakerLayout.stereo) }) := by
  exact ⟨by decide, by decide⟩

/-- C4 amended: the wrapper tracks no session state and defines no
SessionActive error: resetVideo and resetAudio behave identically
whether or not a session is running, and with the engine initialized
and a single string argument they always resolve (video with the
applied `WxH`, audio with the applied layout's name) rather than
failing. -/
theorem reset_commands_ignore_session_state (eng : EngineState) (b b' : Bool)
    (args : List JsValue) (s : String) (h : eng.initialized = true) :
    resetVideoRun eng b args = resetVideoRun eng b' args ∧
    resetAudioRun eng b args = resetAudioRun eng b' args ∧
    (resetVideoRun eng b [JsValue.str s]).1 =
      JsOutcome.resolved (toString (parseSizeHint s.toList).1 ++ "x" ++
        toString (parseSizeHint s.toList).2) ∧
    (resetAudioRun eng b [JsValue.str s]).1 =
      JsOutcome.resolved
        (if parseChannelHint s.toList = SpeakerLayout.mono then "mono" else "stereo") := by
  refine ⟨rfl, rfl, ?_, ?_⟩
  · simp [resetVideoRun, resetVideoCreate, workerCreate, h, resetVideoBuildOvi, create_ovi]
  · cases hc : parseChannelHint s.data <;>
      simp [resetAudioRun, resetAudioCreate, workerCreate, h, resetAudioBuildOai,
        create_oai, String.toList, hc]

/-- C4 amended witness: the amended statement evaluated on a concrete
initialized state. -/
theorem reset_commands_ignore_session_state_witness :
    resetVideoRun estInit true [JsValue.str "800x600"] =
      resetVideoRun estInit false [JsValue.str "800x600"] ∧
    resetAudioRun estInit true [JsValue.str "800x600"] =
      resetAudioRun estInit false [JsValue.str "800x600"] ∧
    (resetVideoRun estInit true [JsValue.str "800x600"]).1 =
      JsOutcome.resolved (toString (parseSizeHint "800x600".toList).1 ++ "x" ++
        toString (parseSizeHint "800x600".toList).2) ∧
    (resetAudioRun estInit true [JsValue.str "800x600"]).1 =
      JsOutcome.resolved
        (if parseChannelHint "800x600".toList = SpeakerLayout.mono then "mono"
         else "stereo") :=
  reset_commands_ignore_session_state estInit true false [JsValue.str "800x600"]
    "800x600" rfl

/-- C5: size-hint parsing — an input `"<w>x<h>"` with both sides
numeric yields `(w, h)`; an empty side leaves the corresponding default
dimension (640 for width, 360 for height) unchanged; an input with no
`'x'` yields `(640, 360)`; a non-numeric side parses to 0 on that side.
Numeric sides are quantified over digit strings whose value fits in the
C `int` range, within which the `atoi` model is faithful. -/
theorem parseSizeHint_spec :
    (∀ w h : List Char, w ≠ [] → h ≠ [] →
      (∀ c ∈ w, c.isDigit = true) → (∀ c ∈ h, c.isDigit = true) →
      decValue w < 2 ^ 31 → decValue h < 2 ^ 31 →
      parseSizeHint (w ++ 'x' :: h) = (decValue w, decValue h)) ∧
    (∀ h : List Char, h ≠ [] → (∀ c ∈ h, c.isDigit = true) → decValue h < 2 ^ 31 →
      parseSizeHint ('x' :: h) = (DEFAULT_VIDEO_WIDTH, decValue h)) ∧
    (∀ w : List Char, w ≠ [] → (∀ c ∈ w, c.isDigit = true) → decValue w < 2 ^ 31 →
      parseSizeHint (w ++ ['x']) = (decValue w, DEFAULT_VIDEO_HEIGHT)) ∧
    (∀ s : List Char, 'x' ∉ s →
      parseSizeHint s = (DEFAULT_VIDEO_WIDTH, DEFAULT_VIDEO_HEIGHT)) ∧
    (∀ (c : Char) (t h : List Char), c.isDigit = false → isSpaceC c = false →
      c ≠ '+' → c ≠ '-' → 'x' ∉ (c :: t) →
      (parseSizeHint ((c :: t) ++ 'x' :: h)).1 = 0) ∧
    (∀ (w : List Char) (c : Char) (t : List Char), 'x' ∉ w →
      c.isDigit = false → isSpaceC c = false → c ≠ '+' → c ≠ '-' →
      (parseSizeHint (w ++ 'x' :: (c :: t))).2 = 0) := by
  have hx_not_digit : ∀ l : List Char, (∀ c ∈ l, c.isDigit = true) → 'x' ∉ l :=
    fun l hd hx => absurd (hd 'x' hx) (by decide)
  have hlen : ∀ l : List Char, l ≠ [] → l.length ≠ 0 :=
    fun l hne h0 => hne (List.length_eq_zero.mp h0)
  have hnum : ∀ l : List Char, l ≠ [] → (∀ c ∈ l, c.isDigit = true) →
      decValue l < 2 ^ 31 → toSizeT (atoi l) = decValue l := by
    intro l hne hd hb
    rw [atoi_digits l hne hd, toSizeT_ofNat _ (lt_trans hb (by norm_num))]
  refine ⟨?_, ?_, ?_, ?_, ?_, ?_⟩
  · intro w h hw hh hdw hdh hbw hbh
    rw [parseSizeHint_split w h (hx_not_digit w hdw), if_pos (hlen w hw),
      if_pos (hlen h hh), hnum w hw hdw hbw, hnum h hh hdh hbh]
  · intro h hh hdh hbh
    have := parseSizeHint_split [] h (by simp)
    rw [List.nil_append] at this
    rw [this, if_pos (hlen h hh), hnum h hh hdh hbh]
    simp
  · intro w hw hdw hbw
    rw [show w ++ ['x'] = w ++ 'x' :: ([] : List Char) from rfl,
      parseSizeHint_split w [] (hx_not_digit w hdw), if_pos (hlen w hw), hnum w hw hdw hbw]
    simp
  · intro s hs
    unfold parseSizeHint
    rw [findChar_eq_none 'x' s hs]
  · intro c t h hd hs hp hm hx
    rw [parseSizeHint_split (c :: t) h hx]
    simp only [List.length_cons, if_pos (Nat.succ_ne_zero t.length),
      atoi_nonNumericHead c t hd hs hp hm]
    rfl
  · intro w c t hxw hd hs hp hm
    rw [parseSizeHint_split w (c :: t) hxw]
    simp only [List.length_cons, if_pos (Nat.succ_ne_zero t.length),
      atoi_nonNumericHead c t hd hs hp hm]
    rfl

/-- C5 witness: the specification's four worked examples, plus a
non-numeric side on each position, evaluated concretely. -/
theorem parseSizeHint_spec_witness :
    parseSizeHint ("1280".toList ++ 'x' :: "720".toList) = (1280, 720) ∧
    parseSizeHint ('x' :: "720".toList) = (640, 720) ∧
    parseSizeHint ("1280".toList ++ ['x']) = (1280, 360) ∧
    parseSizeHint "garbage".toList = (640, 360) ∧
    (parseSizeHint ("abc".toList ++ 'x' :: "720".toList)).1 = 0 ∧
    (parseSizeHint ("720".toList ++ 'x' :: "abc".toList)).2 = 0 :=
  ⟨parseSizeHint_spec.1 "1280".toList "720".toList (by decide) (by decide)
      (by decide) (by decide) (by decide) (by decide),
   parseSizeHint_spec.2.1 "720".toList (by decide) (by decide) (by decide),
   parseSizeHint_spec.2.2.1 "1280".toList (by decide) (by decide) (by decide),
   parseSizeHint_spec.2.2.2.1 "garbage".toList (by decide),
   parseSizeHint_spec.2.2.2.2.1 'a' "bc".toList "720".toList (by decide) (by decide)
      (by decide) (by decide) (by decide),
   parseSizeHint_spec.2.2.2.2.2 "720".toList 'a' "bc".toList (by decide) (by decide)
      (by decide) (by decide) (by decide)⟩

/-- C6: channel-hint parsing selects mono exactly when the substring
`"mono"` occurs anywhere in the input — every other input, including
the empty string, selects stereo — and `resetAudio` resolves with
`"mono"` or `"stereo"` matching the layout applied by the
`obs_reset_audio` call. -/
theorem parseChannelHint_spec (eng : EngineState) (b : Bool) (s : String)
    (h : eng.initialized = true) :
    (∀ l : List Char, parseChannelHint l = SpeakerLayout.mono ↔ monoChars <:+: l) ∧
    (∀ l : List Char, parseChannelHint l = SpeakerLayout.stereo ↔ ¬monoChars <:+: l) ∧
    parseChannelHint [] = SpeakerLayout.stereo ∧
    resetAudioRun eng b [JsValue.str s] =
      (JsOutcome.resolved
        (if parseChannelHint s.toList = SpeakerLayout.mono then "mono" else "stereo"),
       [NativeCall.resetAudio (create_oai DEFAULT_AUDIO_SAMPLES (parseChannelHint s.toList))],
       { eng with audioConfig := some (create_oai DEFAULT_AUDIO_SAMPLES (parseChannelHint s.toList)) }) := by
  have hmono : ∀ l : List Char,
      parseChannelHint l = SpeakerLayout.mono ↔ monoChars <:+: l := by
    intro l
    rw [← containsMono_iff]
    unfold parseChannelHint
    cases containsMono l <;> simp
  refine ⟨hmono, ?_, rfl, ?_⟩
  · intro l
    rw [← hmono l]
    cases hc : parseChannelHint l <;> simp [hc]
  · cases hc : parseChannelHint s.data <;>
      simp [resetAudioRun, resetAudioCreate, workerCreate, h, resetAudioBuildOai,
        create_oai, String.toList, hc, DEFAULT_AUDIO_SAMPLES]

/-- C6 witness: the channel-hint statement evaluated concretely at the
input `"say mono please"` on an initialized state. -/
theorem parseChannelHint_spec_witness :
    (parseChannelHint "say mono please".toList = SpeakerLayout.mono ↔
      monoChars <:+: "say mono please".toList) ∧
    (parseChannelHint "stereo".toList = SpeakerLayout.stereo ↔
      ¬monoChars <:+: "stereo".toList) ∧
    parseChannelHint [] = SpeakerLayout.stereo ∧
    resetAudioRun estInit true [JsValue.str "say mono please"] =
      (JsOutcome.resolved
        (if parseChannelHint "say mono please".toList = SpeakerLayout.mono then "mono"
         else "stereo"),
       [NativeCall.resetAudio
          (create_oai DEFAULT_AUDIO_SAMPLES (parseChannelHint "say mono please".toList))],
       { estInit with audioConfig := some (create_oai DEFAULT_AUDIO_SAMPLES (parseChannelHint "say mono please".toList)) }) :=
  ⟨(parseChannelHint_spec estInit true "say mono please" rfl).1 "say mono please".toList,
   (parseChannelHint_spec estInit true "say mono please" rfl).2.1 "stereo".toList,
   (parseChannelHint_spec estInit true "say mono please" rfl).2.2.1,
   (parseChannelHint_spec estInit true "say mono please" rfl).2.2.2⟩

/-- C7: the two query commands, called while the engine is
uninitialized, return the sentinel string
`"Error: OBS API not initialized!"` as an ordinary string result (by
construction of the equations below they never throw); when initialized
they return the concatenation of the registered encoder/output names,
which is empty when none are registered. -/
theorem query_commands_sentinel (eng : EngineState) :
    obsGetCodecs eng =
      JsOutcome.str
        (if eng.initialized then String.join eng.registeredEncoders
         else NOT_INITIALIZED_STRING) ∧
    obsGetOutputs eng =
      JsOutcome.str
        (if eng.initialized then String.join eng.registeredOutputs
         else NOT_INITIALIZED_STRING) ∧
    String.join [] = "" := by
  refine ⟨?_, ?_, rfl⟩
  · unfold obsGetCodecs
    cases eng.initialized <;> rfl
  · unfold obsGetOutputs
    cases eng.initialized <;> rfl

/-- C8: for resetVideo, resetAudio and startOutput, an argument list
that is not exactly one string value makes `Create` throw the
argument-validation `TypeError` synchronously — no worker is queued, no
native call is made, and the engine state is returned unchanged. -/
theorem invalid_argument_synchronous (eng : EngineState) (engn : Engine) (b : Bool)
    (args : List JsValue) (h : eng.initialized = true)
    (hbad : ∀ s : String, args ≠ [JsValue.str s]) :
    resetVideoCreate eng args = CreateResult.thrown EXPECTED_STRING_ARG ∧
    resetAudioCreate eng args = CreateResult.thrown EXPECTED_STRING_ARG ∧
    startOutputCreate eng args = CreateResult.thrown EXPECTED_STRING_ARG ∧
    resetVideoRun eng b args = (JsOutcome.thrown EXPECTED_STRING_ARG, [], eng) ∧
    resetAudioRun eng b args = (JsOutcome.thrown EXPECTED_STRING_ARG, [], eng) ∧
    startOutputRun engn eng args = (JsOutcome.thrown EXPECTED_STRING_ARG, []) := by
  have hc : workerCreate eng args = CreateResult.thrown EXPECTED_STRING_ARG := by
    rcases args with _ | ⟨v, args'⟩
    · simp [workerCreate, h]
    · rcases args' with _ | ⟨v', rest⟩
      · cases v with
        | str s => exact absurd rfl (hbad s)
        | nonString => simp [workerCreate, h]
      · cases v with
        | str s => simp [workerCreate, h]
        | nonString => simp [workerCreate, h]
  refine ⟨hc, hc, hc, ?_, ?_, ?_⟩ <;>
    simp [resetVideoRun, resetAudioRun, startOutputRun, resetVideoCreate,
      resetAudioCreate, startOutputCreate, hc]

/-- C8 witness: a single non-string argument on a concrete initialized
state. -/
theorem invalid_argument_synchronous_witness :
    resetVideoCreate estInit [JsValue.nonString] = CreateResult.thrown EXPECTED_STRING_ARG ∧
    resetAudioCreate estInit [JsValue.nonString] = CreateResult.thrown EXPECTED_STRING_ARG ∧
    startOutputCreate estInit [JsValue.nonString] = CreateResult.thrown EXPECTED_STRING_ARG ∧
    resetVideoRun estInit false [JsValue.nonString] =
      (JsOutcome.thrown EXPECTED_STRING_ARG, [], estInit) ∧
    resetAudioRun estInit false [JsValue.nonString] =
      (JsOutcome.thrown EXPECTED_STRING_ARG, [], estInit) ∧
    startOutputRun engSample estInit [JsValue.nonString] =
      (JsOutcome.thrown EXPECTED_STRING_ARG, []) :=
  invalid_argument_synchronous estInit engSample false [JsValue.nonString] rfl
    (fun s hcon => by injection hcon with h1 _; exact JsValue.noConfusion h1)

/-- C9: `startOutput` is independent of its string argument — for any
two valid single-string inputs, the resulting outcome and the full
native call trace coincide, the trace creates exactly the two
hard-coded encoder ids, and the success path resolves the fixed token
`"ok"`. -/
theorem startOutput_input_independence (eng : Engine) (est : EngineState)
    (s₁ s₂ : String) (h : est.initialized = true) :
    startOutputRun eng est [JsValue.str s₁] = startOutputRun eng est [JsValue.str s₂] ∧
    (startOutputRun eng est [JsValue.str s₁]).1 = JsOutcome.resolved "ok" ∧
    NativeCall.videoEncoderCreate VIDEO_ENCODER_ID "" ∈
      (startOutputRun eng est [JsValue.str s₁]).2 ∧
    NativeCall.audioEncoderCreate AUDIO_ENCODER_ID "" 0 ∈
      (startOutputRun eng est [JsValue.str s₁]).2 := by
  refine ⟨?_, ?_, ?_, ?_⟩ <;>
    cases hv : eng.videoEncoderHandle VIDEO_ENCODER_ID <;>
      cases ha : eng.audioEncoderHandle AUDIO_ENCODER_ID <;>
        simp [startOutputRun, startOutputCreate, workerCreate, h, startOutputExecute,
          mkStartWorker, cleanupStart, hv, ha]

/-- C9 witness: two distinct concrete hints on a concrete engine and
initialized state. -/
theorem startOutput_input_independence_witness :
    startOutputRun engSample estInit [JsValue.str "rtmp://a"] =
      startOutputRun engSample estInit [JsValue.str "rtmp://b"] ∧
    (startOutputRun engSample estInit [JsValue.str "rtmp://a"]).1 =
      JsOutcome.resolved "ok" ∧
    NativeCall.videoEncoderCreate VIDEO_ENCODER_ID "" ∈
      (startOutputRun engSample estInit [JsValue.str "rtmp://a"]).2 ∧
    NativeCall.audioEncoderCreate AUDIO_ENCODER_ID "" 0 ∈
      (startOutputRun engSample estInit [JsValue.str "rtmp://a"]).2 :=
  startOutput_input_independence engSample estInit "rtmp://a" "rtmp://b" rfl

/-- C10: the `obs_video_info` built by every `resetVideo` call takes
only its base (capture) width and height from the size hint; adapter,
graphics module, pixel format, fps numerator/denominator, and in
particular the output (scaled) width and height are the compile-time
defaults (output size 640×360) regardless of the hint. -/
theorem resetVideo_only_base_dimensions_vary (input : List Char) :
    (resetVideoBuildOvi input).adapter = DEFAULT_VIDEO_ADAPTER ∧
    (resetVideoBuildOvi input).graphics_module = DEFAULT_MODULE ∧
    (resetVideoBuildOvi input).output_format = DEFAULT_VIDEO_FORMAT ∧
    (resetVideoBuildOvi input).fps_num = DEFAULT_VIDEO_FPS_NUM ∧
    (resetVideoBuildOvi input).fps_den = DEFAULT_VIDEO_FPS_DEN ∧
    (resetVideoBuildOvi input).output_width = DEFAULT_VIDEO_WIDTH ∧
    (resetVideoBuildOvi input).output_height = DEFAULT_VIDEO_HEIGHT ∧
    (resetVideoBuildOvi input).base_width = (parseSizeHint input).1 ∧
    (resetVideoBuildOvi input).base_height = (parseSizeHint input).2 :=
  ⟨rfl, rfl, rfl, rfl, rfl, rfl, rfl, rfl, rfl⟩

end ObsApi
